import Mathlib

/-!
Shallow embedding of `cqlengine/columns.py` (the column-descriptor and
container-codec subsystem of a typed field/value framework) and proofs about
its validation/conversion pipeline.

Python dynamic values are embedded as the inductive `PyVal`; Python exceptions
as the inductive `PyError` (`ValidationError` is the library's checked failure
type; `ValueError`, `TypeError`, `AttributeError`, `NotImplementedError` are
the interpreter's built-in exception types, distinguished because several
claims turn on which kind is raised).  Fallible code returns
`Except PyError _`.  The process-wide `Column.instance_counter` is embedded by
explicit state passing.
-/

namespace Cqlengine

/-- Embedding of the Python runtime values this module manipulates:
`None`, booleans, arbitrary-precision integers (`int`/`long` unified),
strings, `uuid.UUID` objects (their 128-bit number), `datetime` instants
(microseconds since 1970-01-01T00:00:00, the resolution of Python
`datetime`), and the container shapes `list`, `tuple`, `set`, `dict`.
A Python `set`/`dict` is represented by its element/pair list in insertion
order with duplicates already collapsed at each construction point. -/
inductive PyVal where
  | none
  | bool (b : Bool)
  | int (n : Int)
  | str (s : String)
  | uuidVal (n : Nat)
  | datetime (micros : Int)
  | list (xs : List PyVal)
  | tuple (xs : List PyVal)
  | set (xs : List PyVal)
  | dict (xs : List (PyVal × PyVal))

/-- Python's `value is None` identity test, used by the validation and
conversion pipeline. -/
def PyVal.isNone : PyVal → Bool
  | .none => true
  | _ => false

mutual

/-- Python's `==` on embedded values, used where the source relies on value
equality (set/dict deduplication).  Python compares booleans and integers
numerically (`True == 1`), recursively inside containers; distinct shapes are
otherwise unequal. -/
def pyEq : PyVal → PyVal → Bool
  | .none, .none => true
  | .bool a, .bool b => a == b
  | .bool a, .int b => (if a then (1 : Int) else 0) == b
  | .int a, .bool b => a == (if b then (1 : Int) else 0)
  | .int a, .int b => a == b
  | .str a, .str b => a == b
  | .uuidVal a, .uuidVal b => a == b
  | .datetime a, .datetime b => a == b
  | .list a, .list b => pyEqList a b
  | .tuple a, .tuple b => pyEqList a b
  | .set a, .set b => pyEqList a b
  | .dict a, .dict b => pyEqPairs a b
  | _, _ => false

def pyEqList : List PyVal → List PyVal → Bool
  | [], [] => true
  | x :: xs, y :: ys => pyEq x y && pyEqList xs ys
  | _, _ => false

def pyEqPairs : List (PyVal × PyVal) → List (PyVal × PyVal) → Bool
  | [], [] => true
  | (k₁, v₁) :: xs, (k₂, v₂) :: ys => pyEq k₁ k₂ && pyEq v₁ v₂ && pyEqPairs xs ys
  | _, _ => false

end

/-- The exception kinds raised by the embedded code.  `validationError` is
`cqlengine.exceptions.ValidationError`, the module's one checked failure
type; the others are Python built-ins. -/
inductive PyError where
  | validationError (msg : String)
  | valueError (msg : String)
  | typeError (msg : String)
  | attributeError (msg : String)
  | notImplementedError
  deriving DecidableEq, Repr

/-- Insertion into an embedded Python set: a value equal (`==`) to a member
is dropped, otherwise it is appended. -/
def pySetInsert (xs : List PyVal) (x : PyVal) : List PyVal :=
  if xs.any (fun y => pyEq y x) then xs else xs ++ [x]

/-- The embedded Python set built from elements in iteration order (the
semantics of a set comprehension: duplicates by `==` collapse to the first
occurrence). -/
def pySetOf (xs : List PyVal) : List PyVal :=
  xs.foldl pySetInsert []

/-- Insertion into an embedded Python dict: an existing key (`==`) keeps its
place and original key object but takes the new value; a fresh key is
appended. -/
def pyDictInsert (ps : List (PyVal × PyVal)) (k v : PyVal) : List (PyVal × PyVal) :=
  if ps.any (fun p => pyEq p.1 k) then
    ps.map fun p => if pyEq p.1 k then (p.1, v) else p
  else ps ++ [(k, v)]

/-- A configured column default: either a static (non-`None`) value or a
zero-argument callable producer, mirroring `Column.__init__`'s
`default` parameter ("can be a value or a callable (no args)").
`Option DefaultT` plays the role of the `None`-vs-set distinction that
`Column.has_default` tests. -/
inductive DefaultT where
  | static (v : PyVal)
  | producer (f : Unit → PyVal)

/-- The constructor arguments of `Column.__init__` that the validation and
conversion pipeline reads (`primary_key`, `index` and the names are kept for
the error-message and schema paths). -/
structure ColumnCfg where
  primary_key : Bool := false
  index : Bool := false
  db_field : Option String := none
  default : Option DefaultT := none
  required : Bool := true
  column_name : Option String := none

/-- `Column.has_default`: `self.default is not None`. -/
def ColumnCfg.has_default (c : ColumnCfg) : Bool :=
  c.default.isSome

/-- `Column.get_default`: if a default is configured, call it when callable,
else return it; with no default the Python method falls through and returns
`None`. -/
def ColumnCfg.get_default (c : ColumnCfg) : PyVal :=
  match c.default with
  | some (.static v) => v
  | some (.producer f) => f ()
  | none => PyVal.none

/-- The name interpolated into the missing-value message:
`self.column_name or self.db_field`, where Python `or` skips falsy values
(`None` and the empty string) and `'{}'.format(None)` prints `None`. -/
def ColumnCfg.errName (c : ColumnCfg) : String :=
  match c.column_name with
  | some s => if s = "" then (match c.db_field with
                              | some t => t
                              | none => "None")
              else s
  | none => match c.db_field with
            | some t => t
            | none => "None"

/-- `Column.validate`: a `None` value resolves to the configured default when
one exists, else raises when `required`, else passes through; any other value
passes through unchanged. -/
def Column_validate (c : ColumnCfg) (value : PyVal) : Except PyError PyVal :=
  if value.isNone then
    if c.has_default then .ok c.get_default
    else if c.required then
      .error (.validationError (c.errName ++ " - None values are not allowed"))
    else .ok value
  else .ok value

/-- `Column.to_database`: substitute the resolved default for a `None` value
when a default is configured; identity otherwise.  The base method never
raises. -/
def Column_to_database (c : ColumnCfg) (value : PyVal) : PyVal :=
  if value.isNone ∧ c.has_default then c.get_default else value

/-- `Column.to_python`: identity in the base class. -/
def Column_to_python (_c : ColumnCfg) (value : PyVal) : PyVal :=
  value

/-- The tail of `Column.__init__`, acting on the process-wide
`Column.instance_counter`: records the current counter as the column's
`position` and increments the counter.  Returns
(new counter, assigned position). -/
def Column_init_counter (instance_counter : Nat) : Nat × Nat :=
  (instance_counter + 1, instance_counter)

/-- `Counter.__init__`: runs the base `Column.__init__` (which increments the
shared counter), then unconditionally raises `NotImplementedError`.
Returns the counter state after the call together with the outcome. -/
def Counter_init (instance_counter : Nat) : Nat × Except PyError Unit :=
  let (counter', _position) := Column_init_counter instance_counter
  (counter', .error .notImplementedError)

/-- Hexadecimal digit characters (both cases), as accepted by Python's
`int(hex, 16)`. -/
def hexVal? (c : Char) : Option Nat :=
  if '0' ≤ c ∧ c ≤ '9' then some (c.toNat - '0'.toNat)
  else if 'a' ≤ c ∧ c ≤ 'f' then some (c.toNat - 'a'.toNat + 10)
  else if 'A' ≤ c ∧ c ≤ 'F' then some (c.toNat - 'A'.toNat + 10)
  else none

/-- Lowercase hex rendering of a `Nat`, `width` digits, most significant
first (used for `uuid.UUID` string forms). -/
def natToHex (n width : Nat) : String :=
  let digit := fun (d : Nat) =>
    if d < 10 then Char.ofNat ('0'.toNat + d) else Char.ofNat ('a'.toNat + d - 10)
  String.mk ((List.range width).map fun i =>
    digit (n / 16 ^ (width - 1 - i) % 16))

/-- `str(uuid.UUID(...))`: the canonical hyphenated form. -/
def uuidStr (n : Nat) : String :=
  let h := natToHex n 32
  String.join [(h.take 8), "-", (h.drop 8).take 4, "-", (h.drop 12).take 4,
               "-", (h.drop 16).take 4, "-", h.drop 20]

mutual

/-- Python 2 `repr` of an embedded value (the form `str` uses for values
nested inside containers).  String escaping inside `repr` of a string is not
modelled (no theorem formats a string containing quotes). -/
def pyRepr : PyVal → String
  | .none => "None"
  | .bool b => if b then "True" else "False"
  | .int n => toString n
  | .str s => "'" ++ s ++ "'"
  | .uuidVal n => "UUID('" ++ uuidStr n ++ "')"
  | .datetime m => "datetime.datetime(" ++ toString m ++ ")"
  | .list xs => "[" ++ pyReprList xs ++ "]"
  | .tuple xs => "(" ++ pyReprList xs ++ (if xs.length = 1 then ",)" else ")")
  | .set xs => "set([" ++ pyReprList xs ++ "])"
  | .dict xs => "\x7b" ++ pyReprPairs xs ++ "\x7d"

def pyReprList : List PyVal → String
  | [] => ""
  | [x] => pyRepr x
  | x :: xs => pyRepr x ++ ", " ++ pyReprList xs

def pyReprPairs : List (PyVal × PyVal) → String
  | [] => ""
  | [(k, v)] => pyRepr k ++ ": " ++ pyRepr v
  | (k, v) :: xs => pyRepr k ++ ": " ++ pyRepr v ++ ", " ++ pyReprPairs xs

end

/-- Python `str()` / `'{}'.format()` of an embedded value: a bare string
prints itself, everything else prints as its repr. -/
def pyStr : PyVal → String
  | .str s => s
  | v => pyRepr v

/-- Python 2 `type(value)` rendering, interpolated into the Text error
message. -/
def pyTypeName : PyVal → String
  | .none => "<type 'NoneType'>"
  | .bool _ => "<type 'bool'>"
  | .int _ => "<type 'int'>"
  | .str _ => "<type 'str'>"
  | .uuidVal _ => "<class 'uuid.UUID'>"
  | .datetime _ => "<type 'datetime.datetime'>"
  | .list _ => "<type 'list'>"
  | .tuple _ => "<type 'tuple'>"
  | .set _ => "<type 'set'>"
  | .dict _ => "<type 'dict'>"

/-- Python truthiness of a length bound: `None` and `0` are falsy, so they
disable the corresponding check. -/
def truthyBound : Option Nat → Bool
  | some m => m ≠ 0
  | none => false

/-- The default `min_length` computed by `Text.__init__`:
`1 if kwargs.get('required', True) else None`. -/
def Text_default_min_length (required : Bool) : Option Nat :=
  if required then some 1 else none

/-- The body of `Text.validate` after the base step (the source rebinds
`value` to the base step's result, so every later reference sees the
resolved value): a `None` result returns early; a non-string is rejected;
then the `max_length`/`min_length` bounds are enforced, each check guarded
by Python truthiness (a `None` or `0` bound disables it).  `bytearray`
values are outside the embedding. -/
def Text_body (c : ColumnCfg) (min_length max_length : Option Nat)
    (v : PyVal) : Except PyError PyVal :=
  if v.isNone then .ok PyVal.none
  else
    match v with
    | .str s =>
        if truthyBound max_length ∧ s.length > max_length.getD 0 then
          .error (.validationError
            (pyStr (match c.column_name with | some t => .str t | none => .none) ++
              " is longer than " ++ toString (max_length.getD 0) ++ " characters"))
        else if truthyBound min_length ∧ s.length < min_length.getD 0 then
          .error (.validationError
            (pyStr (match c.column_name with | some t => .str t | none => .none) ++
              " is shorter than " ++ toString (min_length.getD 0) ++ " characters"))
        else .ok (.str s)
    | other => .error (.validationError (pyTypeName other ++ " is not a string"))

/-- `Text.validate`: the base step first, then the type-specific body on its
result. -/
def Text_validate (c : ColumnCfg) (min_length max_length : Option Nat)
    (value : PyVal) : Except PyError PyVal := do
  let value ← Column_validate c value
  Text_body c min_length max_length value

/-- The brace characters, kept out of literals for the rendering code. -/
def lbrace : Char := Char.ofNat 123

def rbrace : Char := Char.ofNat 125

/-- The message text carried by an exception (`e.message` in Python 2). -/
def PyError.message : PyError → String
  | .validationError m => m
  | .valueError m => m
  | .typeError m => m
  | .attributeError m => m
  | .notImplementedError => ""

/-- JSON string quoting as `json.dumps` performs it (escaping of quote and
backslash; control-character and unicode escapes are outside the embedding). -/
def jsonQuote (s : String) : String :=
  "\"" ++ String.join (s.data.map fun c =>
    if c = '"' then "\\\"" else if c = '\\' then "\\\\" else String.mk [c]) ++ "\""

/-- `json.dumps` on a dictionary key: strings are quoted; integer, boolean
and `None` keys are coerced to their JSON text; any other key type raises
`TypeError("keys must be a string")`. -/
def jsonKeyStr : PyVal → Except PyError String
  | .str s => .ok (jsonQuote s)
  | .int n => .ok (jsonQuote (toString n))
  | .bool b => .ok (jsonQuote (if b then "true" else "false"))
  | .none => .ok (jsonQuote "null")
  | k => .error (.typeError ("keys must be a string, not " ++ pyTypeName k))

def joinSep (sep : String) : List String → String
  | [] => ""
  | [s] => s
  | s :: ss => s ++ sep ++ joinSep sep ss

mutual

/-- `json.dumps(value)` with item separator `isep` and key separator `ksep`
(`', '`/`': '` by default, `','`/`':'` when `JSON.to_database` passes
`separators=(',', ':')`): serializes `None`, booleans, integers, strings,
lists/tuples and string-keyed dictionaries; everything else (sets,
identifiers, instants) raises `TypeError(repr(o) + " is not JSON
serializable")`. -/
def json_dumps_val (isep ksep : String) : PyVal → Except PyError String
  | .none => .ok "null"
  | .bool b => .ok (if b then "true" else "false")
  | .int n => .ok (toString n)
  | .str s => .ok (jsonQuote s)
  | .list xs => do
      let ss ← json_dumps_items isep ksep xs
      .ok ("[" ++ joinSep isep ss ++ "]")
  | .tuple xs => do
      let ss ← json_dumps_items isep ksep xs
      .ok ("[" ++ joinSep isep ss ++ "]")
  | .dict ps => do
      let ss ← json_dumps_pairs isep ksep ps
      .ok (String.mk [lbrace] ++ joinSep isep ss ++ String.mk [rbrace])
  | v => .error (.typeError (pyRepr v ++ " is not JSON serializable"))

def json_dumps_items (isep ksep : String) : List PyVal → Except PyError (List String)
  | [] => .ok []
  | x :: xs => do
      let s ← json_dumps_val isep ksep x
      let ss ← json_dumps_items isep ksep xs
      .ok (s :: ss)

def json_dumps_pairs (isep ksep : String) : List (PyVal × PyVal) → Except PyError (List String)
  | [] => .ok []
  | (k, v) :: ps => do
      let ks ← jsonKeyStr k
      let vs ← json_dumps_val isep ksep v
      let ss ← json_dumps_pairs isep ksep ps
      .ok ((ks ++ ksep ++ vs) :: ss)

end

/-- `JSON.validate`: the whole body is `json.dumps(value)` inside a
`try`, returning the value unchanged on success and re-raising any
`TypeError`/`ValueError` as `ValidationError(e.message)`.  It never invokes
the base `Column.validate` step, so the configuration (`self`) goes
unread. -/
def JSON_validate (_c : ColumnCfg) (value : PyVal) : Except PyError PyVal :=
  match json_dumps_val ", " ": " value with
  | .ok _ => .ok value
  | .error e => .error (.validationError e.message)

/-- The message Python 2's `json.loads` raises when no value can be read. -/
def decodeFail : String := "No JSON object could be decoded"

/-- Whitespace skipping inside the JSON decoder. -/
def jlWs (cs : List Char) : List Char :=
  cs.dropWhile fun c => c = ' ' ∨ c = '\t' ∨ c = '\n' ∨ c = '\r'

/-- The character part of JSON string decoding, after the opening quote:
returns the decoded characters and the remainder past the closing quote.
`\\uXXXX` escapes are outside the embedding. -/
def jlStringChars : List Char → Except String (List Char × List Char)
  | [] => .error "Unterminated string"
  | '"' :: cs => .ok ([], cs)
  | '\\' :: c :: cs => do
      let e ← (match c with
        | '"' => .ok '"'
        | '\\' => .ok '\\'
        | '/' => .ok '/'
        | 'n' => .ok '\n'
        | 't' => .ok '\t'
        | 'r' => .ok '\r'
        | 'b' => .ok (Char.ofNat 8)
        | 'f' => .ok (Char.ofNat 12)
        | _ => (.error "Invalid escape" : Except String Char))
      let (rest, rem) ← jlStringChars cs
      .ok (e :: rest, rem)
  | ['\\'] => .error "Unterminated string"
  | c :: cs => do
      let (rest, rem) ← jlStringChars cs
      .ok (c :: rest, rem)

/-- JSON integer decoding: optional minus, then `0` alone or a nonzero
digit run (floats are outside the embedding; a digit after a leading `0`
is left in the remainder, surfacing as trailing data exactly as the
library's number regex leaves it). -/
def jlInt (cs : List Char) : Except String (Int × List Char) :=
  let (neg, cs₁) := match cs with
    | '-' :: rest => (true, rest)
    | rest => (false, rest)
  match cs₁ with
  | [] => .error decodeFail
  | c :: rest =>
      if c = '0' then .ok (0, rest)
      else if c.isDigit then
        let ds := (c :: rest).takeWhile (·.isDigit)
        let n : Int := Int.ofNat (ds.foldl (fun acc d => acc * 10 + (d.toNat - '0'.toNat)) 0)
        .ok (if neg then -n else n, (c :: rest).dropWhile (·.isDigit))
      else .error decodeFail

mutual

/-- One step of the recursive-descent decoder behind `json.loads`,
restricted to the fragment without floats and unicode escapes; `fuel`
bounds the recursion depth (callers pass more fuel than the input length,
so exhaustion is unreachable). -/
def jlVal : Nat → List Char → Except String (PyVal × List Char)
  | 0, _ => .error decodeFail
  | fuel + 1, cs =>
      match jlWs cs with
      | 'n' :: 'u' :: 'l' :: 'l' :: rest => .ok (.none, rest)
      | 't' :: 'r' :: 'u' :: 'e' :: rest => .ok (.bool true, rest)
      | 'f' :: 'a' :: 'l' :: 's' :: 'e' :: rest => .ok (.bool false, rest)
      | '"' :: rest => do
          let (chars, rem) ← jlStringChars rest
          .ok (.str (String.mk chars), rem)
      | '[' :: rest => jlArray fuel (jlWs rest)
      | c :: rest =>
          if c = lbrace then jlObject fuel (jlWs rest)
          else if c = '-' ∨ c.isDigit then
            match jlInt (c :: rest) with
            | .ok (n, rem) => .ok (.int n, rem)
            | .error m => .error m
          else .error decodeFail
      | [] => .error decodeFail

def jlArray : Nat → List Char → Except String (PyVal × List Char)
  | 0, _ => .error decodeFail
  | fuel + 1, cs =>
      match cs with
      | ']' :: rest => .ok (.list [], rest)
      | _ => do
          let (v, rem) ← jlVal fuel cs
          let (vs, rem') ← jlArrayRest fuel (jlWs rem)
          .ok (.list (v :: vs), rem')

def jlArrayRest : Nat → List Char → Except String (List PyVal × List Char)
  | 0, _ => .error decodeFail
  | fuel + 1, cs =>
      match cs with
      | ']' :: rest => .ok ([], rest)
      | ',' :: rest => do
          let (v, rem) ← jlVal fuel (jlWs rest)
          let (vs, rem') ← jlArrayRest fuel (jlWs rem)
          .ok (v :: vs, rem')
      | _ => .error "Expecting , delimiter"

def jlObject : Nat → List Char → Except String (PyVal × List Char)
  | 0, _ => .error decodeFail
  | fuel + 1, cs =>
      if cs.head? = some rbrace then .ok (.dict [], cs.tail)
      else do
        let (p, rem) ← jlPair fuel cs
        let (ps, rem') ← jlObjectRest fuel (jlWs rem)
        .ok (.dict ((p :: ps).foldl (fun d q => pyDictInsert d q.1 q.2) []), rem')

def jlObjectRest : Nat → List Char → Except String (List (PyVal × PyVal) × List Char)
  | 0, _ => .error decodeFail
  | fuel + 1, cs =>
      if cs.head? = some rbrace then .ok ([], cs.tail)
      else match cs with
        | ',' :: rest => do
            let (p, rem) ← jlPair fuel (jlWs rest)
            let (ps, rem') ← jlObjectRest fuel (jlWs rem)
            .ok (p :: ps, rem')
        | _ => .error "Expecting , delimiter"

def jlPair : Nat → List Char → Except String ((PyVal × PyVal) × List Char)
  | 0, _ => .error decodeFail
  | fuel + 1, cs =>
      match cs with
      | '"' :: rest => do
          let (kcs, rem) ← jlStringChars rest
          (match jlWs rem with
            | ':' :: rest₂ => do
                let (v, rem₂) ← jlVal fuel (jlWs rest₂)
                .ok ((PyVal.str (String.mk kcs), v), rem₂)
            | _ => .error "Expecting : delimiter")
      | _ => .error "Expecting property name"

end

/-- `json.loads(s)` on the embedded fragment: decode one value, then only
whitespace may remain. -/
def json_loads (s : String) : Except String PyVal := do
  let (v, rem) ← jlVal (s.length + 1) s.data
  if jlWs rem = [] then .ok v else .error "Extra data"

/-- `JSON.to_python`: `None` passes through; a string is parsed by
`json.loads`, and a parse failure is re-raised as
`ValueError(e.message)` — a `ValueError`, although the method's docstring
promises a `ValidationError`; any non-string value is returned unchanged. -/
def JSON_to_python (_c : ColumnCfg) (value : PyVal) : Except PyError PyVal :=
  match value with
  | .none => .ok .none
  | .str s =>
      match json_loads s with
      | .ok v => .ok v
      | .error m => .error (.valueError m)
  | v => .ok v

/-- Python 2 `long(x)`: integral and boolean values convert numerically, a
string of (optionally signed) decimal digits with surrounding whitespace
parses, anything else raises `ValueError`/`TypeError`.  Floats are outside
the embedding. -/
def pyLong : PyVal → Except PyError Int
  | .int n => .ok n
  | .bool b => .ok (if b then 1 else 0)
  | .str s =>
      let t := s.data.dropWhile (· = ' ') |>.reverse.dropWhile (· = ' ') |>.reverse
      let (sign, ds) : Int × List Char :=
        match t with
        | '-' :: rest => (-1, rest)
        | '+' :: rest => (1, rest)
        | rest => (1, rest)
      if ds ≠ [] ∧ ds.all (·.isDigit) then
        .ok (sign * Int.ofNat (ds.foldl (fun acc c => acc * 10 + (c.toNat - '0'.toNat)) 0))
      else .error (.valueError ("invalid literal for long() with base 10: '" ++ s ++ "'"))
  | v => .error (.typeError ("long() argument must be a string or a number, not " ++ pyTypeName v))

/-- The body of `Integer.validate` after the base step (the source keeps
both names: `val` is the base result, while the failure message formats the
ORIGINAL `value`): a `None` result returns early; then `long(val)`, with
conversion failure re-raised as the validation failure. -/
def Integer_body (value val : PyVal) : Except PyError PyVal :=
  if val.isNone then .ok PyVal.none
  else
    match pyLong val with
    | .ok n => .ok (.int n)
    | .error _ =>
        .error (.validationError (pyStr value ++ " can't be converted to integral value"))

/-- `Integer.validate`: the base step first, then the type-specific body on
its result. -/
def Integer_validate (c : ColumnCfg) (value : PyVal) : Except PyError PyVal := do
  let val ← Column_validate c value
  Integer_body value val

/-- `Integer.to_python` delegates to `validate`. -/
def Integer_to_python (c : ColumnCfg) (value : PyVal) : Except PyError PyVal :=
  Integer_validate c value

/-- `Integer.to_database` delegates to `validate`. -/
def Integer_to_database (c : ColumnCfg) (value : PyVal) : Except PyError PyVal :=
  Integer_validate c value

/-- `DateTime.to_python`: a `datetime` passes through; otherwise
`datetime.utcfromtimestamp(value)` interprets the number as SECONDS since
the epoch (booleans count as Python ints).  Float input is outside the
embedding. -/
def DateTime_to_python (value : PyVal) : Except PyError PyVal :=
  match value with
  | .datetime m => .ok (.datetime m)
  | .int n => .ok (.datetime (n * 1000000))
  | .bool b => .ok (.datetime (if b then 1000000 else 0))
  | _ => .error (.typeError "a float is required")

/-- `DateTime.to_database`: base default substitution first, then a
non-`datetime` is rejected, and an instant encodes as
`long((value - epoch).total_seconds() * 1000)` — MILLISECONDS since the
epoch, truncated toward zero (the float computation is modelled exactly; it
agrees for the magnitudes a calendar `datetime` can hold). -/
def DateTime_to_database (c : ColumnCfg) (value : PyVal) : Except PyError PyVal :=
  let v := Column_to_database c value
  match v with
  | .datetime m => .ok (.int (Int.tdiv m 1000))
  | other => .error (.validationError ("'" ++ pyStr other ++ "' is not a datetime object"))

/-- `UUID.re_uuid.match(s)`: `re.match` anchors at the START only, so this
holds exactly when the first 36 characters of `s` follow the pattern
`[0-9a-f]{8}-[0-9a-f]{4}-[0-9a-f]{4}-[0-9a-f]{4}-[0-9a-f]{12}` — trailing
characters beyond position 35 are not inspected. -/
def re_uuid_match (s : String) : Bool :=
  let cs := s.data.take 36
  cs.length = 36 &&
    (List.range 36).all fun i =>
      if i = 8 ∨ i = 13 ∨ i = 18 ∨ i = 23 then cs.getD i ' ' = '-'
      else (cs.getD i ' ').isDigit ∨ ('a' ≤ cs.getD i ' ' ∧ cs.getD i ' ' ≤ 'f')

/-- One left-to-right pass of `str.replace('urn:', '')`: every occurrence
removed, scanning resuming after each removal. -/
def removeUrn : List Char → List Char
  | 'u' :: 'r' :: 'n' :: ':' :: cs => removeUrn cs
  | c :: cs => c :: removeUrn cs
  | [] => []

/-- One left-to-right pass of `str.replace('uuid:', '')`. -/
def removeUuidPat : List Char → List Char
  | 'u' :: 'u' :: 'i' :: 'd' :: ':' :: cs => removeUuidPat cs
  | c :: cs => c :: removeUuidPat cs
  | [] => []

/-- `str.strip('{}')`: brace characters removed from both ends. -/
def stripBraces (cs : List Char) : List Char :=
  ((cs.dropWhile fun c => c = lbrace ∨ c = rbrace).reverse.dropWhile
    fun c => c = lbrace ∨ c = rbrace).reverse

/-- The whitespace `int(s, base)` strips around its argument. -/
def isPySpace (c : Char) : Bool :=
  c = ' ' ∨ c = '\t' ∨ c = '\n' ∨ c = '\r'

/-- Python `int(s, 16)`: surrounding whitespace, an optional sign and an
optional `0x`/`0X` prefix are allowed before the (nonempty) hex digits of
either case; anything else raises `ValueError`. -/
def pyIntBase16 (cs : List Char) : Except PyError Int :=
  let t := ((cs.dropWhile isPySpace).reverse.dropWhile isPySpace).reverse
  let (sign, t₁) : Int × List Char := match t with
    | '-' :: r => (-1, r)
    | '+' :: r => (1, r)
    | r => (1, r)
  let t₂ := match t₁ with
    | '0' :: 'x' :: r => r
    | '0' :: 'X' :: r => r
    | r => r
  if t₂ ≠ [] ∧ t₂.all (fun c => (hexVal? c).isSome) then
    .ok (sign * Int.ofNat (t₂.foldl (fun a c => a * 16 + (hexVal? c).getD 0) 0))
  else .error (.valueError "invalid literal for int() with base 16")

/-- The stdlib `uuid.UUID(hex)` constructor: removes every `urn:` and then
every `uuid:` substring, strips surrounding braces, removes all hyphens,
requires exactly 32 remaining characters (else `ValueError`), parses them
as a base-16 Python int, and range-checks the result against 128 bits. -/
def pyUUID_ctor (s : String) : Except PyError Nat :=
  let h := (stripBraces (removeUuidPat (removeUrn s.data))).filter (fun c => c ≠ '-')
  if h.length ≠ 32 then .error (.valueError "badly formed hexadecimal UUID string")
  else
    match pyIntBase16 h with
    | .error e => .error e
    | .ok n =>
        if 0 ≤ n ∧ n < 2 ^ 128 then .ok n.toNat
        else .error (.valueError "int is out of range (need a 128-bit value)")

/-- The body of `UUID.validate` after the base step (`val` is the base
result; the failure message formats the ORIGINAL `value`): a `None` result
returns early; an already-typed `uuid.UUID` passes through; a string must
prefix-match `re_uuid` (else validation failure) and is then handed to the
`uuid.UUID` constructor; a non-string raises the regex engine's
`TypeError`. -/
def UUID_body (value val : PyVal) : Except PyError PyVal :=
  if val.isNone then .ok PyVal.none
  else
    match val with
    | .uuidVal n => .ok (.uuidVal n)
    | .str s =>
        if re_uuid_match s then
          match pyUUID_ctor s with
          | .ok n => .ok (.uuidVal n)
          | .error e => .error e
        else .error (.validationError (pyStr value ++ " is not a valid uuid"))
    | _ => .error (.typeError "expected string or buffer")

/-- `UUID.validate`: the base step first, then the type-specific body on its
result. -/
def UUID_validate (c : ColumnCfg) (value : PyVal) : Except PyError PyVal := do
  let val ← Column_validate c value
  UUID_body value val

/-- `TimeUUID` declares no `validate` override: its validate is the
inherited `UUID.validate`. -/
def TimeUUID_validate : ColumnCfg → PyVal → Except PyError PyVal :=
  UUID_validate

/-- The body of `Float.validate` after the base step (the source rebinds
`value`, so the failure message formats the base step's result): a `None`
result returns early; then the built-in `float(value)` — an external
collaborator passed in as a function, since the embedding does not model
IEEE arithmetic — with its `TypeError`/`ValueError` re-raised as the
validation failure. -/
def Float_body (pyFloat : PyVal → Except PyError PyVal) (v : PyVal) :
    Except PyError PyVal :=
  if v.isNone then .ok PyVal.none
  else
    match pyFloat v with
    | .ok f => .ok f
    | .error (.typeError _) =>
        .error (.validationError (pyStr v ++ " is not a valid float"))
    | .error (.valueError _) =>
        .error (.validationError (pyStr v ++ " is not a valid float"))
    | .error e => .error e

/-- `Float.validate`: the base step first, then the type-specific body on
its result. -/
def Float_validate (pyFloat : PyVal → Except PyError PyVal) (c : ColumnCfg)
    (value : PyVal) : Except PyError PyVal := do
  let value ← Column_validate c value
  Float_body pyFloat value

/-- `Bytes`, `Ascii`, `Boolean`, `DateTime` and `Decimal` declare no
`validate` override: their validate is the inherited `Column.validate`
itself. -/
def Bytes_validate : ColumnCfg → PyVal → Except PyError PyVal :=
  Column_validate

def Ascii_validate : ColumnCfg → PyVal → Except PyError PyVal :=
  Column_validate

def Boolean_validate : ColumnCfg → PyVal → Except PyError PyVal :=
  Column_validate

def DateTime_validate : ColumnCfg → PyVal → Except PyError PyVal :=
  Column_validate

def Decimal_validate : ColumnCfg → PyVal → Except PyError PyVal :=
  Column_validate

/-- The column classes declared by the module, plus `nonColumn` standing for
an unrelated Python class (a built-in such as `int`), for the
construction-time subclass checks. -/
inductive PyClass where
  | column
  | bytes
  | ascii
  | text
  | json
  | integer
  | dateTime
  | uuid
  | timeUUID
  | boolean
  | floatCol
  | decimal
  | counter
  | baseContainer
  | setCol
  | listCol
  | mapCol
  | nonColumn
  deriving DecidableEq

/-- `issubclass(cls, Column)`. -/
def issubclass_Column : PyClass → Bool
  | .nonColumn => false
  | _ => true

/-- `issubclass(cls, BaseContainerColumn)`. -/
def issubclass_BaseContainerColumn : PyClass → Bool
  | .baseContainer | .setCol | .listCol | .mapCol => true
  | _ => false

/-- The class attribute `cls.db_type`: `None` on the abstract bases
(`Column`, `Counter`, `BaseContainerColumn`), the (possibly templated)
storage tag on every concrete class; reading it on a class outside the
hierarchy raises `AttributeError`. -/
def db_type_attr : PyClass → Except PyError (Option String)
  | .column => .ok none
  | .bytes => .ok (some "blob")
  | .ascii => .ok (some "ascii")
  | .text => .ok (some "text")
  | .json => .ok (some "text")
  | .integer => .ok (some "int")
  | .dateTime => .ok (some "timestamp")
  | .uuid => .ok (some "uuid")
  | .timeUUID => .ok (some "timeuuid")
  | .boolean => .ok (some "boolean")
  | .floatCol => .ok (some "double")
  | .decimal => .ok (some "decimal")
  | .counter => .ok none
  | .baseContainer => .ok none
  | .setCol => .ok (some ("set<" ++ String.mk [lbrace, rbrace] ++ ">"))
  | .listCol => .ok (some ("list<" ++ String.mk [lbrace, rbrace] ++ ">"))
  | .mapCol => .ok (some ("map<" ++ String.mk [lbrace, rbrace] ++ ", " ++
      String.mk [lbrace, rbrace] ++ ">"))
  | .nonColumn => .error (.attributeError "type object has no attribute db_type")

/-- `cls()` — instantiating a class with no arguments, as the container
constructors do for their element columns: `Counter` raises
`NotImplementedError` from its own constructor, the container classes lack
their required `value_type` argument and raise `TypeError`, every other
class constructs. -/
def instantiate_no_args : PyClass → Except PyError Unit
  | .counter => .error .notImplementedError
  | .baseContainer | .setCol | .listCol | .mapCol =>
      .error (.typeError "__init__ takes at least 2 arguments (1 given)")
  | _ => .ok ()

/-- `BaseContainerColumn.__init__`'s element-type handling: the three checks
in source order — column subclass, not a container, concrete `db_type` —
then `self.value_col = self.value_type()`. -/
def BaseContainerColumn_init (value_type : PyClass) : Except PyError Unit :=
  if ¬ issubclass_Column value_type then
    .error (.validationError "value_type must be a column class")
  else if issubclass_BaseContainerColumn value_type then
    .error (.validationError "container types cannot be nested")
  else
    match db_type_attr value_type with
    | .error e => .error e
    | .ok none => .error (.validationError "value_type cannot be an abstract column type")
    | .ok (some _) => instantiate_no_args value_type

/-- `Map.__init__`: the three key checks as WRITTEN in the source — the
first two inspect `value_type`, not `key_type`, although their messages
speak of the key — then `self.key_col = self.key_type()` and the base
constructor on `value_type`. -/
def Map_init (key_type value_type : PyClass) : Except PyError Unit :=
  if ¬ issubclass_Column value_type then
    .error (.validationError "key_type must be a column class")
  else if issubclass_BaseContainerColumn value_type then
    .error (.validationError "container types cannot be nested")
  else
    match db_type_attr key_type with
    | .error e => .error e
    | .ok none => .error (.validationError "key_type cannot be an abstract column type")
    | .ok (some _) =>
        match instantiate_no_args key_type with
        | .error e => .error e
        | .ok _ => BaseContainerColumn_init value_type

/-- The short type name in Python's own error messages
(`'NoneType' object is not iterable`). -/
def pyShortType : PyVal → String
  | .none => "NoneType"
  | .bool _ => "bool"
  | .int _ => "int"
  | .str _ => "str"
  | .uuidVal _ => "UUID"
  | .datetime _ => "datetime.datetime"
  | .list _ => "list"
  | .tuple _ => "tuple"
  | .set _ => "set"
  | .dict _ => "dict"

/-- Python iteration (`for v in value`): lists/tuples/sets yield their
elements, a dict its keys, a string its characters; any other value raises
the non-iterable `TypeError`. -/
def pyIter : PyVal → Except PyError (List PyVal)
  | .list xs => .ok xs
  | .tuple xs => .ok xs
  | .set xs => .ok xs
  | .dict ps => .ok (ps.map (·.1))
  | .str s => .ok (s.data.map fun ch => .str (String.mk [ch]))
  | v => .error (.typeError ("'" ++ pyShortType v ++ "' object is not iterable"))

/-- `value.items()`: defined on dictionaries only; any other value raises
`AttributeError`. -/
def pyItems : PyVal → Except PyError (List (PyVal × PyVal))
  | .dict ps => .ok ps
  | v => .error (.attributeError ("'" ++ pyShortType v ++ "' object has no attribute 'items'"))

/-- The element-wise traversal of a comprehension: each element converted in
order, the first failure aborting the whole expression. -/
def exceptMap (f : PyVal → Except PyError PyVal) : List PyVal → Except PyError (List PyVal)
  | [] => .ok []
  | x :: xs => do
      let v ← f x
      let vs ← exceptMap f xs
      .ok (v :: vs)

/-- The pair-wise traversal of a dict comprehension: key then value through
their converters, in pair order, the first failure aborting. -/
def exceptMapPairs (fk fv : PyVal → Except PyError PyVal) :
    List (PyVal × PyVal) → Except PyError (List (PyVal × PyVal))
  | [] => .ok []
  | (k, v) :: ps => do
      let k₁ ← fk k
      let v₁ ← fv v
      let ps₁ ← exceptMapPairs fk fv ps
      .ok ((k₁, v₁) :: ps₁)

/-- `Set.validate`: base step first; early return on `None`; under `strict`
only a real set is accepted (else the not-a-set failure), otherwise set,
list or tuple (else the cannot-coerce failure); each element then goes
through the element column's `validate` and the results are folded into a
set.  The element column is passed as its validation function. -/
def Set_validate (value_col : PyVal → Except PyError PyVal) (strict : Bool)
    (c : ColumnCfg) (value : PyVal) : Except PyError PyVal := do
  let val ← Column_validate c value
  if val.isNone then .ok PyVal.none
  else
    let typeOk : Bool := match val with
      | .set _ => true
      | .list _ => !strict
      | .tuple _ => !strict
      | _ => false
    if ¬ typeOk then
      .error (.validationError (pyStr val ++
        (if strict then " is not a set object" else " cannot be coerced to a set object")))
    else do
      let xs ← pyIter val
      let vs ← exceptMap value_col xs
      .ok (.set (pySetOf vs))

/-- The ephemeral Quoter wrapper the container `to_database` methods return:
it holds the already storage-converted collection for later literal
rendering. -/
structure Quoter where
  value : PyVal

/-- `Set.to_database`: iterates the input directly — no `None` or default
handling — converting each element through the element column and folding
into a set inside a Quoter. -/
def Set_to_database (value_col : PyVal → Except PyError PyVal)
    (value : PyVal) : Except PyError Quoter := do
  let xs ← pyIter value
  let vs ← exceptMap value_col xs
  .ok ⟨.set (pySetOf vs)⟩

/-- `List.to_database`: iterates the input directly, preserving order. -/
def List_to_database (value_col : PyVal → Except PyError PyVal)
    (value : PyVal) : Except PyError Quoter := do
  let xs ← pyIter value
  let vs ← exceptMap value_col xs
  .ok ⟨.list vs⟩

/-- `Map.to_database`: reads `value.items()` directly — no `None` or default
handling — converting keys and values through their element columns. -/
def Map_to_database (key_col value_col : PyVal → Except PyError PyVal)
    (value : PyVal) : Except PyError Quoter := do
  let ps ← pyItems value
  let qs ← exceptMapPairs key_col value_col ps
  .ok ⟨.dict (qs.foldl (fun d q => pyDictInsert d q.1 q.2) [])⟩

end Cqlengine

open Cqlengine

/-- C2: `Column.validate` on an empty (`None`) value returns the resolved
default when one is configured — invoking a callable producer — regardless of
`required`; otherwise it fails with a validation failure when `required`;
otherwise it passes `None` through unchanged. -/
theorem base_validate_empty_spec (c : ColumnCfg) :
    (c.has_default = true → Column_validate c PyVal.none = .ok c.get_default) ∧
    (c.has_default = false → c.required = true →
      Column_validate c PyVal.none =
        .error (.validationError (c.errName ++ " - None values are not allowed"))) ∧
    (c.has_default = false → c.required = false →
      Column_validate c PyVal.none = .ok PyVal.none) := by
  refine ⟨?_, ?_, ?_⟩
  · intro h₁; simp [Column_validate, PyVal.isNone, h₁]
  · intro h₁ h₂; simp [Column_validate, PyVal.isNone, h₁, h₂]
  · intro h₁ h₂; simp [Column_validate, PyVal.isNone, h₁, h₂]

/-- Witness for C2 at concrete configurations: a callable default is invoked
even when `required` is set; with no default a required column rejects `None`;
an optional column passes `None` through. -/
theorem base_validate_empty_spec_witness :
    Column_validate { default := some (.producer fun _ => PyVal.int 7),
                      required := true } PyVal.none = .ok (PyVal.int 7) ∧
    Column_validate { required := true, column_name := some "c" } PyVal.none =
      .error (.validationError "c - None values are not allowed") ∧
    Column_validate { required := false } PyVal.none = .ok PyVal.none := by
  refine ⟨?_, ?_, ?_⟩
  · exact (base_validate_empty_spec _).1 rfl
  · exact (base_validate_empty_spec _).2.1 rfl rfl
  · exact (base_validate_empty_spec _).2.2 rfl rfl

/-- C1: the round trip is broken for DateTime, refuting the claim at the
instant one second after the epoch: `to_database` encodes it as `1000`
(milliseconds since the epoch), but `to_python` hands the stored number to
`utcfromtimestamp`, which reads it as seconds, producing the instant 1000
seconds after the epoch — not the encoded instant.  (Microseconds: `10 ^ 6`
is the original instant, `10 ^ 9` the decoded one.) -/
theorem datetime_roundtrip_not_identity :
    DateTime_to_database {} (PyVal.datetime 1000000) = .ok (PyVal.int 1000) ∧
    DateTime_to_python (PyVal.int 1000) = .ok (PyVal.datetime 1000000000) ∧
    PyVal.datetime 1000000000 ≠ PyVal.datetime 1000000 := by
  refine ⟨rfl, rfl, ?_⟩
  intro h
  simp at h

set_option maxRecDepth 4000 in
/-- C8 counterexample: the regex is applied with `re.match`, which anchors
only at the start, so the 40-character non-canonical string
`"123e4567-e89b-12d3-a456-426614174000----"` passes the pattern check and is
accepted by the `uuid.UUID` constructor (hyphens stripped, 32 hex digits
remain) — `validate` SUCCEEDS on it instead of failing with a validation
failure as the claim requires. -/
theorem uuid_validate_accepts_noncanonical :
    UUID_validate {} (PyVal.str "123e4567-e89b-12d3-a456-426614174000----") =
      .ok (PyVal.uuidVal 0x123e4567e89b12d3a456426614174000) := by
  rfl

/-- C8 amended: an already-typed identifier passes through unchanged; a
string whose first 36 characters do NOT match the hyphenated-hex pattern
fails with a validation failure; a string whose first 36 characters DO match
is handed to the `uuid.UUID` constructor and yields its outcome: the parsed
identifier when, after the constructor's preprocessing (removal of `urn:`
and `uuid:` substrings, stripping of surrounding braces, removal of
hyphens), exactly 32 hex digits remain — hence also for some non-canonical
longer strings — else the constructor's `ValueError`, not a validation
failure. -/
theorem uuid_validate_prefix_spec (c : ColumnCfg) :
    (∀ n, UUID_validate c (PyVal.uuidVal n) = .ok (PyVal.uuidVal n)) ∧
    (∀ s, re_uuid_match s = false →
      UUID_validate c (PyVal.str s) =
        .error (.validationError (s ++ " is not a valid uuid"))) ∧
    (∀ s, re_uuid_match s = true →
      UUID_validate c (PyVal.str s) = (pyUUID_ctor s).map PyVal.uuidVal) := by
  refine ⟨fun n => rfl, fun s h => ?_, fun s h => ?_⟩
  · simp [UUID_validate, UUID_body, Column_validate, PyVal.isNone, pyStr, h, bind,
      Except.bind]
  · simp only [UUID_validate, UUID_body, Column_validate, PyVal.isNone, h, bind,
      Except.bind]
    cases hc : pyUUID_ctor s <;> simp [Except.map, hc, h]

set_option maxRecDepth 4000 in
/-- Witness for C8's amended claim at concrete inputs: `"not-a-uuid"` fails
the pattern and is rejected with the validation failure; the canonical
string from the spec parses to its identifier; a prefix-matched string with
a trailing `urn:` also parses, because the constructor's preprocessing
removes that substring before counting hex digits. -/
theorem uuid_validate_prefix_spec_witness :
    UUID_validate {} (PyVal.str "not-a-uuid") =
      .error (.validationError "not-a-uuid is not a valid uuid") ∧
    UUID_validate {} (PyVal.str "123e4567-e89b-12d3-a456-426614174000") =
      .ok (PyVal.uuidVal 0x123e4567e89b12d3a456426614174000) ∧
    UUID_validate {} (PyVal.str "123e4567-e89b-12d3-a456-426614174000urn:") =
      .ok (PyVal.uuidVal 0x123e4567e89b12d3a456426614174000) := by
  refine ⟨?_, ?_, ?_⟩
  · exact (uuid_validate_prefix_spec {}).2.1 "not-a-uuid" (by decide)
  · exact ((uuid_validate_prefix_spec {}).2.2
      "123e4567-e89b-12d3-a456-426614174000" (by decide)).trans rfl
  · exact ((uuid_validate_prefix_spec {}).2.2
      "123e4567-e89b-12d3-a456-426614174000urn:" (by decide)).trans rfl

/-- C9: constructing a `Counter` column always raises the not-supported
failure (`NotImplementedError`), but the base constructor has already run, so
the process-wide declaration-order counter is incremented by one even though
construction fails. -/
theorem counter_init_increments_then_raises (instance_counter : Nat) :
    Counter_init instance_counter =
      (instance_counter + 1, .error .notImplementedError) := by
  rfl

/-- C6: `JSON.to_python` on malformed stored text raises `ValueError` (the
parse error's message re-raised with the built-in type), NOT the library's
validation-failure type that its own docstring promises; well-formed text
parses to the structured value. -/
theorem json_to_python_error_kind :
    JSON_to_python {} (PyVal.str "not json") =
      .error (.valueError "No JSON object could be decoded") ∧
    (∀ m, JSON_to_python {} (PyVal.str "not json") ≠
      .error (.validationError m)) ∧
    JSON_to_python {} (PyVal.str "[1, 2]") =
      .ok (PyVal.list [PyVal.int 1, PyVal.int 2]) := by
  refine ⟨rfl, ?_, rfl⟩
  intro m h
  rw [show JSON_to_python {} (PyVal.str "not json") =
    .error (.valueError "No JSON object could be decoded") from rfl] at h
  simp at h

/-- C3 counterexample: `JSON.validate` on an empty value with `required` set
and no default returns the empty value instead of failing with the
missing-value validation failure; with a configured default it still
returns the empty value, not the default. -/
theorem json_validate_passes_empty_through :
    JSON_validate { required := true } PyVal.none = .ok PyVal.none ∧
    JSON_validate { default := some (.static (PyVal.int 5)), required := true }
      PyVal.none = .ok PyVal.none :=
  ⟨rfl, rfl⟩

/-- C3 amended: every scalar variant's `validate` except JSON's applies the
base step first: a base-step failure propagates unchanged through each
overriding variant (Text, Integer, Float, UUID, and TimeUUID via
inheritance); an empty value resolves the configured default into the
variant's own type-specific checks; a present value reaches those checks
unchanged; with `required` set and no default each overriding variant fails
on an empty value with the missing-value validation failure; and the
variants without an override (Bytes, Ascii, Boolean, DateTime, Decimal) run
exactly the base step.  `JSON.validate` alone never applies the base step:
it returns an empty value unchanged regardless of default and `required`,
and returns any JSON-encodable value unchanged. -/
theorem scalar_validate_base_step_spec (pyFloat : PyVal → Except PyError PyVal)
    (c : ColumnCfg) :
    JSON_validate c PyVal.none = .ok PyVal.none ∧
    (∀ v s, json_dumps_val ", " ": " v = .ok s → JSON_validate c v = .ok v) ∧
    (∀ v e, Column_validate c v = .error e →
      (∀ mn mx, Text_validate c mn mx v = .error e) ∧
      Integer_validate c v = .error e ∧
      Float_validate pyFloat c v = .error e ∧
      UUID_validate c v = .error e ∧
      TimeUUID_validate c v = .error e) ∧
    (c.has_default = true →
      (∀ mn mx, Text_validate c mn mx PyVal.none = Text_body c mn mx c.get_default) ∧
      Integer_validate c PyVal.none = Integer_body PyVal.none c.get_default ∧
      Float_validate pyFloat c PyVal.none = Float_body pyFloat c.get_default ∧
      UUID_validate c PyVal.none = UUID_body PyVal.none c.get_default) ∧
    (∀ v, v.isNone = false →
      (∀ mn mx, Text_validate c mn mx v = Text_body c mn mx v) ∧
      Integer_validate c v = Integer_body v v ∧
      Float_validate pyFloat c v = Float_body pyFloat v ∧
      UUID_validate c v = UUID_body v v) ∧
    (c.default = none → c.required = true →
      (∀ mn mx, Text_validate c mn mx PyVal.none =
        .error (.validationError (c.errName ++ " - None values are not allowed"))) ∧
      Integer_validate c PyVal.none =
        .error (.validationError (c.errName ++ " - None values are not allowed")) ∧
      Float_validate pyFloat c PyVal.none =
        .error (.validationError (c.errName ++ " - None values are not allowed")) ∧
      UUID_validate c PyVal.none =
        .error (.validationError (c.errName ++ " - None values are not allowed")) ∧
      TimeUUID_validate c PyVal.none =
        .error (.validationError (c.errName ++ " - None values are not allowed"))) ∧
    (∀ v, Bytes_validate c v = Column_validate c v ∧
      Ascii_validate c v = Column_validate c v ∧
      Boolean_validate c v = Column_validate c v ∧
      DateTime_validate c v = Column_validate c v ∧
      Decimal_validate c v = Column_validate c v ∧
      TimeUUID_validate c v = UUID_validate c v) := by
  refine ⟨rfl, fun v s h => ?_, fun v e h => ?_, fun hd => ?_, fun v hv => ?_,
    fun h₁ h₂ => ?_, fun v => ⟨rfl, rfl, rfl, rfl, rfl, rfl⟩⟩
  · simp [JSON_validate, h]
  · refine ⟨fun mn mx => ?_, ?_, ?_, ?_, ?_⟩ <;>
      simp [Text_validate, Integer_validate, Float_validate, UUID_validate,
        TimeUUID_validate, h, bind, Except.bind]
  · have base : Column_validate c PyVal.none = .ok c.get_default := by
      simp [Column_validate, PyVal.isNone, hd]
    refine ⟨fun mn mx => ?_, ?_, ?_, ?_⟩ <;>
      simp [Text_validate, Integer_validate, Float_validate, UUID_validate,
        base, bind, Except.bind]
  · have base : Column_validate c v = .ok v := by
      simp [Column_validate, hv]
    refine ⟨fun mn mx => ?_, ?_, ?_, ?_⟩ <;>
      simp [Text_validate, Integer_validate, Float_validate, UUID_validate,
        base, bind, Except.bind]
  · have base : Column_validate c PyVal.none =
        .error (.validationError (c.errName ++ " - None values are not allowed")) := by
      simp [Column_validate, PyVal.isNone, ColumnCfg.has_default, h₁, h₂]
    refine ⟨fun mn mx => ?_, ?_, ?_, ?_, ?_⟩ <;>
      simp [Text_validate, Integer_validate, Float_validate, UUID_validate,
        TimeUUID_validate, base, bind, Except.bind]

/-- Witness for C3's amended claim at concrete inputs: a required Integer
column without a default rejects the empty value through the base step; a
static default `"7"` resolves into the Integer checks and converts; a Float
column propagates the same base failure whatever the conversion builtin
does; an encodable value passes `JSON.validate` unchanged. -/
theorem scalar_validate_base_step_spec_witness :
    Integer_validate { required := true, column_name := some "c" } PyVal.none =
      .error (.validationError "c - None values are not allowed") ∧
    Integer_validate { default := some (.static (PyVal.str "7")) } PyVal.none =
      .ok (PyVal.int 7) ∧
    Float_validate (fun _ => .error (.typeError "float() argument"))
        { required := true, column_name := some "c" } PyVal.none =
      .error (.validationError "c - None values are not allowed") ∧
    JSON_validate { required := true } (PyVal.int 3) = .ok (PyVal.int 3) := by
  refine ⟨?_, ?_, ?_, ?_⟩
  · exact ((scalar_validate_base_step_spec
      (fun _ => .error (.typeError "float() argument"))
      { required := true, column_name := some "c" }).2.2.2.2.2.1 rfl rfl).2.1
  · exact (((scalar_validate_base_step_spec
      (fun _ => .error (.typeError "float() argument"))
      { default := some (.static (PyVal.str "7")) }).2.2.2.1 rfl).2.1).trans rfl
  · exact ((scalar_validate_base_step_spec
      (fun _ => .error (.typeError "float() argument"))
      { required := true, column_name := some "c" }).2.2.2.2.2.1 rfl rfl).2.2.1
  · exact (scalar_validate_base_step_spec
      (fun _ => .error (.typeError "float() argument"))
      { required := true }).2.1 (PyVal.int 3) "3" rfl

/-- C5: the `BaseContainerColumn` constructor raises a distinct validation
failure for each of the three element-type errors — not a column class,
itself a container, abstract (no concrete `db_type` tag) — and construction
succeeds when none of the three conditions hold; the three messages are
pairwise distinct. -/
theorem base_container_init_spec (vt : PyClass) :
    (issubclass_Column vt = false →
      BaseContainerColumn_init vt =
        .error (.validationError "value_type must be a column class")) ∧
    (issubclass_Column vt = true → issubclass_BaseContainerColumn vt = true →
      BaseContainerColumn_init vt =
        .error (.validationError "container types cannot be nested")) ∧
    (issubclass_Column vt = true → issubclass_BaseContainerColumn vt = false →
      db_type_attr vt = .ok none →
      BaseContainerColumn_init vt =
        .error (.validationError "value_type cannot be an abstract column type")) ∧
    (∀ s, issubclass_Column vt = true → issubclass_BaseContainerColumn vt = false →
      db_type_attr vt = .ok (some s) →
      BaseContainerColumn_init vt = .ok ()) ∧
    ("value_type must be a column class" ≠ "container types cannot be nested" ∧
     "container types cannot be nested" ≠ "value_type cannot be an abstract column type" ∧
     "value_type must be a column class" ≠ "value_type cannot be an abstract column type") := by
  refine ⟨?_, ?_, ?_, ?_, by decide, by decide, by decide⟩ <;>
    cases vt <;>
    simp [BaseContainerColumn_init, issubclass_Column,
      issubclass_BaseContainerColumn, db_type_attr, instantiate_no_args]

/-- Witness for C5 at concrete element classes: a built-in non-column class,
the `List` container class, the abstract `Column` base, and the concrete
`Integer` class each take the branch the theorem assigns them. -/
theorem base_container_init_spec_witness :
    BaseContainerColumn_init .nonColumn =
      .error (.validationError "value_type must be a column class") ∧
    BaseContainerColumn_init .listCol =
      .error (.validationError "container types cannot be nested") ∧
    BaseContainerColumn_init .column =
      .error (.validationError "value_type cannot be an abstract column type") ∧
    BaseContainerColumn_init .integer = .ok () := by
  refine ⟨(base_container_init_spec _).1 rfl,
    (base_container_init_spec _).2.1 rfl rfl,
    (base_container_init_spec _).2.2.1 rfl rfl rfl,
    (base_container_init_spec _).2.2.2.1 "int" rfl rfl rfl⟩

/-- C4: the Map constructor's key-type checks inspect `value_type` in place
of `key_type`, so a container key class (here `Set`) slips past both the
column-class and the nested-container check and construction instead dies
instantiating the key column without its required argument — a `TypeError`,
not the nested-containers validation failure; likewise a non-column key
class dies reading `db_type` — an `AttributeError`, not a validation
failure. -/
theorem map_init_key_checks_miss :
    Map_init .setCol .integer =
      .error (.typeError "__init__ takes at least 2 arguments (1 given)") ∧
    (∀ m, Map_init .setCol .integer ≠ .error (.validationError m)) ∧
    Map_init .nonColumn .integer =
      .error (.attributeError "type object has no attribute db_type") ∧
    (∀ m, Map_init .nonColumn .integer ≠ .error (.validationError m)) := by
  refine ⟨rfl, ?_, rfl, ?_⟩ <;> intro m h <;>
    first
    | (rw [show Map_init .setCol .integer =
        .error (.typeError "__init__ takes at least 2 arguments (1 given)") from rfl] at h
       simp at h)
    | (rw [show Map_init .nonColumn .integer =
        .error (.attributeError "type object has no attribute db_type") from rfl] at h
       simp at h)

/-- C7: under `strict`, `Set.validate` rejects every non-set (non-`None`)
input with the not-a-set validation failure, whatever the element column;
with `strict` off, a set, list or tuple input has every element validated
through the element column and the results folded into a set; concretely
with Integer elements, `[1, 2, 2]` yields the two-element set `{1, 2}`. -/
theorem set_validate_spec (ecol : PyVal → Except PyError PyVal) (c : ColumnCfg) :
    (∀ v, (match v with
            | PyVal.set _ => false
            | PyVal.none => false
            | _ => true) = true →
      Set_validate ecol true c v =
        .error (.validationError (pyStr v ++ " is not a set object"))) ∧
    (∀ xs vs, exceptMap ecol xs = .ok vs →
      Set_validate ecol false c (PyVal.list xs) = .ok (.set (pySetOf vs)) ∧
      Set_validate ecol false c (PyVal.tuple xs) = .ok (.set (pySetOf vs)) ∧
      Set_validate ecol false c (PyVal.set xs) = .ok (.set (pySetOf vs))) ∧
    Set_validate (Integer_validate {}) false c
        (PyVal.list [PyVal.int 1, PyVal.int 2, PyVal.int 2]) =
      .ok (PyVal.set [PyVal.int 1, PyVal.int 2]) := by
  have base : ∀ v, v.isNone = false → Column_validate c v = .ok v := by
    intro v hv
    simp [Column_validate, hv]
  refine ⟨fun v hv => ?_, fun xs vs hm => ⟨?_, ?_, ?_⟩, ?_⟩
  · cases v <;> simp at hv <;>
      simp [Set_validate, base, bind, Except.bind, PyVal.isNone]
  · simp [Set_validate, base (PyVal.list xs) rfl, bind, Except.bind, PyVal.isNone,
      pyIter, hm]
  · simp [Set_validate, base (PyVal.tuple xs) rfl, bind, Except.bind, PyVal.isNone,
      pyIter, hm]
  · simp [Set_validate, base (PyVal.set xs) rfl, bind, Except.bind, PyVal.isNone,
      pyIter, hm]
  · simp [Set_validate, base (PyVal.list [PyVal.int 1, PyVal.int 2, PyVal.int 2]) rfl,
      bind, Except.bind, PyVal.isNone, pyIter]
    rfl

/-- Witness for C7 at concrete inputs: the ordered list `[1, 2]` is rejected
under strict mode with the not-a-set failure; without strict mode the tuple
`(1, 2, 2)` and the list `[1, 2, 2]` both collapse to the two-element
set. -/
theorem set_validate_spec_witness :
    Set_validate (Integer_validate {}) true {} (PyVal.list [PyVal.int 1, PyVal.int 2]) =
      .error (.validationError "[1, 2] is not a set object") ∧
    Set_validate (Integer_validate {}) false {}
        (PyVal.tuple [PyVal.int 1, PyVal.int 2, PyVal.int 2]) =
      .ok (PyVal.set [PyVal.int 1, PyVal.int 2]) ∧
    Set_validate (Integer_validate {}) false {}
        (PyVal.list [PyVal.int 1, PyVal.int 2, PyVal.int 2]) =
      .ok (PyVal.set [PyVal.int 1, PyVal.int 2]) := by
  refine ⟨?_, ?_, ?_⟩
  · exact ((set_validate_spec (Integer_validate {}) {}).1
      (PyVal.list [PyVal.int 1, PyVal.int 2]) rfl).trans rfl
  · exact (((set_validate_spec (Integer_validate {}) {}).2.1
      [PyVal.int 1, PyVal.int 2, PyVal.int 2]
      [PyVal.int 1, PyVal.int 2, PyVal.int 2] rfl).2.1).trans rfl
  · exact (set_validate_spec (Integer_validate {}) {}).2.2

/-- C10: the container `to_database` methods iterate their input directly,
with no default substitution and no empty-value branch: on a `None` input
Set and List raise the non-iterable `TypeError` and Map the
missing-`items` `AttributeError` — never the validation failure and never a
configured default — while the base `Column.to_database` they override
substitutes the resolved default for `None`. -/
theorem container_to_database_no_default (edb kdb vdb : PyVal → Except PyError PyVal)
    (c : ColumnCfg) (h : c.has_default = true) :
    Set_to_database edb PyVal.none =
      .error (.typeError "'NoneType' object is not iterable") ∧
    List_to_database edb PyVal.none =
      .error (.typeError "'NoneType' object is not iterable") ∧
    Map_to_database kdb vdb PyVal.none =
      .error (.attributeError "'NoneType' object has no attribute 'items'") ∧
    Column_to_database c PyVal.none = c.get_default := by
  refine ⟨rfl, rfl, rfl, ?_⟩
  simp [Column_to_database, PyVal.isNone, h]

/-- Witness for C10 at a concrete configuration: a Set column's
`to_database` on `None` raises the non-iterable `TypeError` even though a
default is configured, while the base conversion would have substituted the
default `9`. -/
theorem container_to_database_no_default_witness :
    Set_to_database (Integer_to_database {}) PyVal.none =
      .error (.typeError "'NoneType' object is not iterable") ∧
    Column_to_database { default := some (.static (PyVal.int 9)) } PyVal.none =
      PyVal.int 9 := by
  constructor
  · exact (container_to_database_no_default (Integer_to_database {})
      (Integer_to_database {}) (Integer_to_database {})
      { default := some (.static (PyVal.int 9)) } rfl).1
  · exact ((container_to_database_no_default (Integer_to_database {})
      (Integer_to_database {}) (Integer_to_database {})
      { default := some (.static (PyVal.int 9)) } rfl).2.2.2).trans rfl
